import Mathlib

/-
Verification of the feconf source-reader subsystem against its
natural-language specification.  The Go sources under reader/ are embedded
shallowly: byte slices become lists of naturals, Go errors become
`Option String` / `Except String`, channels become lists of emitted events,
and the per-instance mutable state (closed flag, watch marker) becomes an
explicit state record threaded through the operations.
-/

namespace Feconf

/-- Raw payload bytes (Go `[]byte`), one natural per byte. -/
abbrev Bytes := List Nat

/-- UTF-8 encoding of one character, used to embed Go's `[]byte(string)`
conversion. -/
def utf8Encode (c : Char) : List Nat :=
  let n := c.toNat
  if n < 0x80 then [n]
  else if n < 0x800 then
    [0xC0 + n / 0x40, 0x80 + n % 0x40]
  else if n < 0x10000 then
    [0xE0 + n / 0x1000, 0x80 + (n / 0x40) % 0x40, 0x80 + n % 0x40]
  else
    [0xF0 + n / 0x40000, 0x80 + (n / 0x1000) % 0x40,
     0x80 + (n / 0x40) % 0x40, 0x80 + n % 0x40]

/-- Go `[]byte(s)`: the UTF-8 bytes of a string. -/
def strBytes (s : String) : Bytes :=
  s.data.flatMap utf8Encode

/-- Embeds reader.ReadEvent (src/unnamed/part_022): source URI, payload
bytes and an optional error.  The timestamp field carries no semantic
content for any claim and is omitted. -/
structure ReadEvent where
  sourceURI : String
  data : Bytes
  error : Option String
deriving DecidableEq, Repr

/-- Embeds reader.NewReadEvent: builds an event from URI, data and error. -/
def NewReadEvent (uri : String) (data : Bytes) (err : Option String) : ReadEvent :=
  { sourceURI := uri, data := data, error := err }

/-- Embeds (*ReadEvent).IsValid: `e.Error == nil && len(e.Data) > 0`
(the Go nil-receiver guard has no counterpart on a value type). -/
def ReadEvent.IsValid (e : ReadEvent) : Bool :=
  e.error.isNone && decide (0 < e.data.length)

/-- Go strings.HasPrefix. -/
def hasPrefixS (s p : String) : Bool :=
  List.isPrefixOf p.data s.data

/-- Go strings.TrimSpace (whitespace at both ends removed). -/
def trimSpaceS (s : String) : String :=
  ⟨(((s.data.dropWhile Char.isWhitespace).reverse).dropWhile Char.isWhitespace).reverse⟩

/-- Embeds the line loop of (*HTTPReader).processSSEStream
(reader/http/reader.go lines 284-318), translated clause for clause:
blank lines and `:` comment lines are skipped first; `data:` lines are
trimmed and accumulated newline-joined; the `else if line == ""` emit
branch of the source is kept verbatim even though the first clause makes
it unreachable. -/
def processSSELines (uri : String) (lines : List String) (acc : String) : List ReadEvent :=
  match lines with
  | [] => []
  | line :: rest =>
    if line = "" ∨ hasPrefixS line ":" then
      processSSELines uri rest acc
    else if hasPrefixS line "data:" then
      let d := trimSpaceS (line.drop 5)
      let acc2 := (if 0 < acc.length then acc ++ "\n" else acc) ++ d
      processSSELines uri rest acc2
    else if line = "" then
      if 0 < acc.length then
        NewReadEvent uri (strBytes acc) none :: processSSELines uri rest ""
      else
        processSSELines uri rest acc
    else
      processSSELines uri rest acc

/-- Embeds (*HTTPReader).processSSEStream: run the line loop on the
scanned lines, then emit one stream-error event if the scanner ended with
an error. -/
def processSSEStream (uri : String) (lines : List String) (scanErr : Option String) : List ReadEvent :=
  processSSELines uri lines "" ++
    (match scanErr with
     | some e => [NewReadEvent uri [] (some ("SSE stream error: " ++ e))]
     | none => [])

/-- Observable outcome of one HTTP exchange as seen by (*HTTPReader).fetch:
a transport error from client.Do, or a response with status code, status
text and body, whose read may itself fail. -/
structure HTTPResponse where
  doErr : Option String
  status : Nat
  statusText : String
  body : Bytes
  readErr : Option String
deriving Repr

/-- Go net/http.StatusOK. -/
def statusOK : Nat := 200

/-- Embeds (*HTTPReader).fetch (reader/http/reader.go lines 170-197):
a client.Do error fails; then any status other than 200 fails; then a
body-read error fails; otherwise the body is returned. -/
def fetch (r : HTTPResponse) : Except String Bytes :=
  match r.doErr with
  | some e => .error ("failed to execute request: " ++ e)
  | none =>
    if r.status ≠ statusOK then
      .error ("HTTP request failed with status: " ++ toString r.status ++ " " ++ r.statusText)
    else
      match r.readErr with
      | some e => .error ("failed to read response body: " ++ e)
      | none => .ok r.body

/-- One step of the retry loop's observable behaviour: a sleep of a given
duration or an attempted server hit with its attempt index. -/
inductive RetryStep where
  | sleep (d : Nat)
  | attempt (i : Nat)
deriving DecidableEq, Repr

/-- The wrapped error returned when every attempt failed:
`failed after %d attempts: %w`. -/
def retryFailMsg (total : Nat) (lastErr : Option String) : String :=
  "failed after " ++ toString total ++ " attempts: " ++
    (match lastErr with | some e => e | none => "<nil>")

/-- Embeds the loop body of (*HTTPReader).fetchWithRetry
(reader/http/reader.go lines 146-167): `i` is the current attempt index,
`rem` the attempts still allowed, `lastErr` the last failure.  Before
every attempt except attempt 0 the loop sleeps the fixed retry delay.
Besides the result it records the trace of sleeps and server hits. -/
def retryGo (δ : Nat) (resps : Nat → HTTPResponse) (total : Nat) :
    Nat → Nat → Option String → Except String Bytes × List RetryStep
  | _, 0, lastErr => (.error (retryFailMsg total lastErr), [])
  | i, rem+1, _ =>
    let pre : List RetryStep :=
      if i = 0 then [.attempt i] else [.sleep δ, .attempt i]
    match fetch (resps i) with
    | .ok d => (.ok d, pre)
    | .error e =>
      let r := retryGo δ resps total (i+1) rem (some e)
      (r.1, pre ++ r.2)

/-- Embeds (*HTTPReader).fetchWithRetry with its trace: at most
`retryAttempts` attempts starting at index 0. -/
def fetchWithRetry (δ retryAttempts : Nat) (resps : Nat → HTTPResponse) :
    Except String Bytes × List RetryStep :=
  retryGo δ resps retryAttempts 0 retryAttempts none

/-- Is a retry step a server hit? -/
def RetryStep.isAttempt : RetryStep → Bool
  | .attempt _ => true
  | .sleep _ => false

/-- Number of server hits performed by a Read. -/
def serverHits (δ retryAttempts : Nat) (resps : Nat → HTTPResponse) : Nat :=
  ((fetchWithRetry δ retryAttempts resps).2.filter RetryStep.isAttempt).length

/-- The retry schedule of `k` executed attempts starting at index `i`:
each attempt after the very first one (index 0) is preceded by one sleep
of the fixed delay `δ`, and attempt indices are consecutive. -/
def retrySchedule (δ i k : Nat) : List RetryStep :=
  match k with
  | 0 => []
  | k+1 =>
    (if i = 0 then [RetryStep.attempt i] else [RetryStep.sleep δ, RetryStep.attempt i]) ++
      retrySchedule δ (i+1) k

/-- A 500 response as produced by the C3 test scenario's server. -/
def resp500 : HTTPResponse :=
  { doErr := none, status := 500, statusText := "Internal Server Error",
    body := [], readErr := none }

/-- A 200 response carrying the configuration body. -/
def resp200 : HTTPResponse :=
  { doErr := none, status := 200, statusText := "OK",
    body := strBytes "conf-body", readErr := none }

/-- A 204 response (a 2xx status other than 200). -/
def resp204 : HTTPResponse :=
  { doErr := none, status := 204, statusText := "No Content",
    body := strBytes "x", readErr := none }

/-- A 206 response (a 2xx status other than 200). -/
def resp206 : HTTPResponse :=
  { doErr := none, status := 206, statusText := "Partial Content",
    body := strBytes "x", readErr := none }

/-- The C3 scenario server: 500 on the first two hits, then 200. -/
def serverTwice500 : Nat → HTTPResponse :=
  fun i => if i < 2 then resp500 else resp200

/-- State of a file reader instance: the closed flag and whether the
change-notification watcher handle is set (`f.watcher != nil`). -/
structure FileReaderState where
  closed : Bool
  watcher : Bool
deriving DecidableEq, Repr

/-- Embeds (*FileReader).Read: the closed check, then the result of
reading the file (passed in as the filesystem's answer). -/
def fileRead (s : FileReaderState) (content : Except String Bytes) : Except String Bytes :=
  if s.closed then .error "reader is closed" else content

/-- Embeds (*FileReader).Subscribe (reader/file/reader.go lines 92-121):
closed check, already-subscribed check, watcher creation and watch
attachment (either may fail), then the watcher marker is set. -/
def fileSubscribe (s : FileReaderState) (path : String)
    (newWatcherErr addWatchErr : Option String) : Except String FileReaderState :=
  if s.closed then .error "reader is closed"
  else if s.watcher then .error "already subscribed"
  else
    match newWatcherErr with
    | some e => .error ("failed to create file watcher: " ++ e)
    | none =>
      match addWatchErr with
      | some e => .error ("failed to watch file " ++ path ++ ": " ++ e)
      | none => .ok { s with watcher := true }

/-- Embeds (*FileReader).Close: nil on an already-closed reader; otherwise
the closed flag is set first, then the watcher (when present) is closed —
a watcher close failure is returned with the flag already set and the
watcher handle kept. -/
def fileClose (s : FileReaderState) (watcherCloseErr : Option String) :
    FileReaderState × Option String :=
  if s.closed then (s, none)
  else if s.watcher then
    match watcherCloseErr with
    | some e =>
      ({ closed := true, watcher := true }, some ("failed to close file watcher: " ++ e))
    | none => ({ closed := true, watcher := false }, none)
  else ({ closed := true, watcher := false }, none)

/-- State of an HTTP reader instance: only the closed flag — the source
keeps no record of active subscriptions. -/
structure HTTPReaderState where
  closed : Bool
deriving DecidableEq, Repr

/-- Embeds (*HTTPReader).Read: the closed check, then fetchWithRetry. -/
def httpRead (s : HTTPReaderState) (δ n : Nat) (resps : Nat → HTTPResponse) :
    Except String Bytes :=
  if s.closed then .error "reader is closed" else (fetchWithRetry δ n resps).1

/-- Embeds (*HTTPReader).Subscribe (reader/http/reader.go lines 115-128):
only the closed flag is checked; a fresh event channel is always handed
out and the state is otherwise untouched. -/
def httpSubscribe (s : HTTPReaderState) : Except String HTTPReaderState :=
  if s.closed then .error "reader is closed" else .ok s

/-- Embeds (*HTTPReader).Close. -/
def httpClose (s : HTTPReaderState) : HTTPReaderState × Option String :=
  if s.closed then (s, none) else ({ closed := true }, none)

/-- State of a WebSocket reader instance: only the closed flag. -/
structure WSReaderState where
  closed : Bool
deriving DecidableEq, Repr

/-- Embeds (*WSReader).Read: the closed check, then readWithRetry's
result. -/
def wsRead (s : WSReaderState) (result : Except String Bytes) : Except String Bytes :=
  if s.closed then .error "reader is closed" else result

/-- Embeds (*WSReader).Subscribe (reader/ws/reader.go lines 121-134):
only the closed flag is checked. -/
def wsSubscribe (s : WSReaderState) : Except String WSReaderState :=
  if s.closed then .error "reader is closed" else .ok s

/-- Embeds (*WSReader).Close. -/
def wsClose (s : WSReaderState) : WSReaderState × Option String :=
  if s.closed then (s, none) else ({ closed := true }, none)

/-- State of a Redis reader instance: only the closed flag — Subscribe
keeps no record of active subscriptions. -/
structure RedisReaderState where
  closed : Bool
deriving DecidableEq, Repr

/-- Embeds (*RedisReader).Read: the closed check, then fetchWithRetry's
result. -/
def redisRead (s : RedisReaderState) (result : Except String Bytes) : Except String Bytes :=
  if s.closed then .error "reader is closed" else result

/-- Embeds (*RedisReader).Subscribe: closed check, then the
keyspace-notification enablement, whose failure fails the call. -/
def redisSubscribe (s : RedisReaderState) (notifSetupErr : Option String) :
    Except String RedisReaderState :=
  if s.closed then .error "reader is closed"
  else
    match notifSetupErr with
    | some e => .error ("failed to enable keyspace notifications: " ++ e)
    | none => .ok s

/-- Embeds (*RedisReader).Close: nil when already closed; otherwise the
flag is set and the client close result (possibly an error) is returned. -/
def redisClose (s : RedisReaderState) (clientCloseErr : Option String) :
    RedisReaderState × Option String :=
  if s.closed then (s, none) else ({ closed := true }, clientCloseErr)

/-- State of a cluster-resource reader instance: the closed flag and
whether the informer handle is set (`k.informer != nil`). -/
structure K8SReaderState where
  closed : Bool
  informer : Bool
deriving DecidableEq, Repr

/-- Embeds the guard of (*K8SReader).Read: the closed check, then the
resource resolution result. -/
def k8sReadGuard (s : K8SReaderState) (result : Except String Bytes) : Except String Bytes :=
  if s.closed then .error "reader is closed" else result

/-- Embeds (*K8SReader).Subscribe (reader/k8s/reader.go lines 154-228):
closed check, already-subscribed check, client check, then cache sync; on
sync failure the informer marker is reset, so the state is unchanged. -/
def k8sSubscribe (s : K8SReaderState) (clientOk syncOk : Bool) :
    Except String K8SReaderState :=
  if s.closed then .error "reader is closed"
  else if s.informer then .error "already subscribed"
  else if !clientOk then .error "k8s client not initialized"
  else if !syncOk then .error "failed to sync cache"
  else .ok { s with informer := true }

/-- Embeds (*K8SReader).Close: flag set, stop channel closed, informer
cleared, nil returned. -/
def k8sClose (s : K8SReaderState) : K8SReaderState × Option String :=
  if s.closed then (s, none) else ({ closed := true, informer := false }, none)

/-- Go fmt %v rendering of a string slice: the keys separated by spaces
inside square brackets. -/
def formatKeys (ks : List String) : String :=
  "[" ++ String.intercalate " " ks ++ "]"

/-- Embeds (*K8SReader).readConfigMap (reader/k8s/reader.go lines
252-286): the resource fetch may fail; with a key selector the key is
looked up or a not-found error raised; without one the value is returned
only when the map has exactly one entry, an empty map and a multi-key map
being errors (the latter listing the map's keys). -/
def readConfigMap (ns nm key : String)
    (fetched : Except String (List (String × String))) : Except String Bytes :=
  match fetched with
  | .error e => .error ("failed to get configmap " ++ ns ++ "/" ++ nm ++ ": " ++ e)
  | .ok dta =>
    if key ≠ "" then
      match dta.lookup key with
      | some v => .ok (strBytes v)
      | none => .error ("key " ++ key ++ " not found in configmap " ++ ns ++ "/" ++ nm)
    else
      match dta with
      | [] => .error ("configmap " ++ ns ++ "/" ++ nm ++ " is empty")
      | [kv] => .ok (strBytes kv.2)
      | _ => .error ("configmap " ++ ns ++ "/" ++ nm ++
          " contains multiple keys, please specify one: " ++ formatKeys (dta.map Prod.fst))

/-- Embeds (*K8SReader).readSecret (reader/k8s/reader.go lines 289-323),
identical in shape to readConfigMap but over byte-slice values. -/
def readSecret (ns nm key : String)
    (fetched : Except String (List (String × Bytes))) : Except String Bytes :=
  match fetched with
  | .error e => .error ("failed to get secret " ++ ns ++ "/" ++ nm ++ ": " ++ e)
  | .ok dta =>
    if key ≠ "" then
      match dta.lookup key with
      | some v => .ok v
      | none => .error ("key " ++ key ++ " not found in secret " ++ ns ++ "/" ++ nm)
    else
      match dta with
      | [] => .error ("secret " ++ ns ++ "/" ++ nm ++ " is empty")
      | [kv] => .ok kv.2
      | _ => .error ("secret " ++ ns ++ "/" ++ nm ++
          " contains multiple keys, please specify one: " ++ formatKeys (dta.map Prod.fst))

/-- Embeds the DeleteFunc handler of (*K8SReader).Subscribe (reader/k8s/
reader.go lines 203-210): on resource deletion the handler sends
NewReadEvent(k.uri, nil, nil) — empty payload and absent error. -/
def k8sDeleteEvent (uri : String) : ReadEvent := NewReadEvent uri [] none

/-- gorilla/websocket close code CloseGoingAway. -/
def CloseGoingAway : Nat := 1001

/-- gorilla/websocket close code CloseAbnormalClosure. -/
def CloseAbnormalClosure : Nat := 1006

/-- A WebSocket read error: either a close frame error with its status
code, or any other transport error. -/
inductive WSReadErr where
  | closeErr (code : Nat) (text : String)
  | otherErr (msg : String)
deriving DecidableEq, Repr

/-- gorilla/websocket IsUnexpectedCloseError: true only for a close error
whose status code is not among the expected codes; false for every
non-close error. -/
def isUnexpectedCloseError (e : WSReadErr) (expected : List Nat) : Bool :=
  match e with
  | .closeErr code _ => !(expected.contains code)
  | .otherErr _ => false

/-- Error text of a WebSocket read error (gorilla renders close errors as
`websocket: close <code>: <text>`). -/
def wsErrText : WSReadErr → String
  | .closeErr code text => "websocket: close " ++ toString code ++ ": " ++ text
  | .otherErr msg => msg

/-- Observable script of one WebSocket connection: the dial outcome, the
messages read before the loop ends, and the read error that ends it. -/
structure WSConnScript where
  dialErr : Option String
  msgs : List Bytes
  termErr : WSReadErr
deriving DecidableEq, Repr

/-- Embeds (*WSReader).handleWSConnection (reader/ws/reader.go lines
223-300): a dial failure emits one connection error event; otherwise one
data event per message is emitted, and when the read loop ends its error
produces one error event exactly when IsUnexpectedCloseError holds for it
with expected codes CloseGoingAway and CloseAbnormalClosure. -/
def handleWSConnection (uri : String) (sc : WSConnScript) : List ReadEvent :=
  match sc.dialErr with
  | some e => [NewReadEvent uri [] (some ("failed to connect to WebSocket: " ++ e))]
  | none =>
    sc.msgs.map (fun d => NewReadEvent uri d none) ++
      (if isUnexpectedCloseError sc.termErr [CloseGoingAway, CloseAbnormalClosure] then
        [NewReadEvent uri [] (some ("WebSocket read error: " ++ wsErrText sc.termErr))]
      else [])

/-- One observable item of a WebSocket subscription: a delivered event or
a reconnect-delay sleep. -/
inductive WSTraceItem where
  | event (e : ReadEvent)
  | sleep (d : Nat)
deriving DecidableEq, Repr

/-- Embeds (*WSReader).subscribeWS (reader/ws/reader.go lines 201-220):
connections are handled one after the other, each followed by one
reconnect sleep of the retry delay; the script list ends at caller
cancellation. -/
def subscribeWS (uri : String) (δ : Nat) (scripts : List WSConnScript) :
    List WSTraceItem :=
  scripts.flatMap (fun sc =>
    (handleWSConnection uri sc).map WSTraceItem.event ++ [WSTraceItem.sleep δ])

/-- Does an event carry an error? -/
def isErrorEvent (e : ReadEvent) : Bool := e.error.isSome

/-- Number of error events in a delivered sequence. -/
def errorEventCount (evs : List ReadEvent) : Nat := (evs.filter isErrorEvent).length

/-- Embeds the notification loop of (*RedisReader).subscribeKeyspace:
every keyspace notification triggers one fetch whose result is emitted as
one event — the data on success, the error (with nil payload) on
failure. -/
def keyspaceLoop (uri : String) (fetches : List (Except String Bytes)) : List ReadEvent :=
  match fetches with
  | [] => []
  | .ok d :: rest => NewReadEvent uri d none :: keyspaceLoop uri rest
  | .error e :: rest => NewReadEvent uri [] (some e) :: keyspaceLoop uri rest

/-- Embeds (*RedisReader).subscribeKeyspace (lines 961-1020 of the redis
reader): one initial fetch whose event is emitted only when the fetch
succeeds (`if data, err := r.fetch(ctx); err == nil`), then the
notification loop. -/
def subscribeKeyspace (uri : String) (initial : Except String Bytes)
    (notifs : List (Except String Bytes)) : List ReadEvent :=
  match initial with
  | .ok d => NewReadEvent uri d none :: keyspaceLoop uri notifs
  | .error _ => keyspaceLoop uri notifs

/-- The attempts-preceded-by-sleep block the retry loop prepends at
attempt index `i`. -/
def retryPre (δ i : Nat) : List RetryStep :=
  if i = 0 then [RetryStep.attempt i] else [RetryStep.sleep δ, RetryStep.attempt i]

theorem retryGo_step_ok (δ : Nat) (resps : Nat → HTTPResponse)
    (total i rem : Nat) (lastErr : Option String) (d : Bytes)
    (h : fetch (resps i) = .ok d) :
    retryGo δ resps total i (rem+1) lastErr = (.ok d, retryPre δ i) := by
  simp only [retryGo, retryPre]
  rw [h]

theorem retryGo_step_error (δ : Nat) (resps : Nat → HTTPResponse)
    (total i rem : Nat) (lastErr : Option String) (e : String)
    (h : fetch (resps i) = .error e) :
    retryGo δ resps total i (rem+1) lastErr =
      ((retryGo δ resps total (i+1) rem (some e)).1,
        retryPre δ i ++ (retryGo δ resps total (i+1) rem (some e)).2) := by
  simp only [retryGo, retryPre]
  rw [h]

theorem retryPre_filter (δ i : Nat) :
    (retryPre δ i).filter RetryStep.isAttempt = [RetryStep.attempt i] := by
  by_cases hi : i = 0 <;> simp [retryPre, hi, RetryStep.isAttempt]

theorem retrySchedule_zero (δ i : Nat) : retrySchedule δ i 0 = [] := rfl

theorem retrySchedule_succ (δ i k : Nat) :
    retrySchedule δ i (k+1) = retryPre δ i ++ retrySchedule δ (i+1) k := by
  simp [retrySchedule, retryPre]

theorem retryGo_hits_le (δ : Nat) (resps : Nat → HTTPResponse) (total : Nat) :
    ∀ rem i lastErr,
      ((retryGo δ resps total i rem lastErr).2.filter RetryStep.isAttempt).length ≤ rem := by
  intro rem
  induction rem with
  | zero => intro i lastErr; simp [retryGo]
  | succ rem ih =>
    intro i lastErr
    cases h : fetch (resps i) with
    | ok d =>
      rw [retryGo_step_ok δ resps total i rem lastErr d h]
      simp [retryPre_filter]
    | error e =>
      rw [retryGo_step_error δ resps total i rem lastErr e h]
      have hrec := ih (i+1) (some e)
      simp only [List.filter_append, List.length_append, retryPre_filter,
        List.length_singleton]
      omega

theorem retryGo_trace_schedule (δ : Nat) (resps : Nat → HTTPResponse) (total : Nat) :
    ∀ rem i lastErr,
      (retryGo δ resps total i rem lastErr).2 =
        retrySchedule δ i
          ((retryGo δ resps total i rem lastErr).2.filter RetryStep.isAttempt).length := by
  intro rem
  induction rem with
  | zero => intro i lastErr; simp [retryGo, retrySchedule]
  | succ rem ih =>
    intro i lastErr
    cases h : fetch (resps i) with
    | ok d =>
      rw [retryGo_step_ok δ resps total i rem lastErr d h]
      simp only [retryPre_filter, List.length_singleton]
      rw [show (1:Nat) = 0 + 1 from rfl, retrySchedule_succ]
      simp [retrySchedule_zero]
    | error e =>
      rw [retryGo_step_error δ resps total i rem lastErr e h]
      have hrec := ih (i+1) (some e)
      simp only [List.filter_append, List.length_append, retryPre_filter,
        List.length_singleton]
      rw [Nat.add_comm 1 _, retrySchedule_succ, ← hrec]

theorem retryGo_first_success (δ : Nat) (resps : Nat → HTTPResponse) (total : Nat) :
    ∀ m rem i lastErr d,
      m < rem →
      (∀ j, j < m → ∃ e, fetch (resps (i + j)) = .error e) →
      fetch (resps (i + m)) = .ok d →
      (retryGo δ resps total i rem lastErr).1 = .ok d ∧
      ((retryGo δ resps total i rem lastErr).2.filter RetryStep.isAttempt).length = m + 1 := by
  intro m
  induction m with
  | zero =>
    intro rem i lastErr d hlt _ hok
    obtain ⟨r, rfl⟩ : ∃ r, rem = r + 1 := ⟨rem - 1, by omega⟩
    rw [Nat.add_zero] at hok
    rw [retryGo_step_ok δ resps total i r lastErr d hok]
    simp [retryPre_filter]
  | succ m ih =>
    intro rem i lastErr d hlt hfail hok
    obtain ⟨r, rfl⟩ : ∃ r, rem = r + 1 := ⟨rem - 1, by omega⟩
    obtain ⟨e, he⟩ : ∃ e, fetch (resps i) = .error e := by
      simpa using hfail 0 (by omega)
    have hih := ih r (i+1) (some e) d (by omega)
      (fun j hj => by
        have := hfail (j+1) (by omega)
        simpa [Nat.add_assoc, Nat.add_comm 1 j] using this)
      (by simpa [Nat.add_assoc, Nat.add_comm 1 m] using hok)
    rw [retryGo_step_error δ resps total i r lastErr e he]
    simp only [List.filter_append, List.length_append, retryPre_filter,
      List.length_singleton, hih.1, hih.2, true_and]
    omega

theorem retryGo_all_fail (δ : Nat) (resps : Nat → HTTPResponse) (total : Nat) :
    ∀ rem i lastErr,
      0 < rem →
      (∀ j, j < rem → ∃ e, fetch (resps (i + j)) = .error e) →
      ∃ e, fetch (resps (i + rem - 1)) = .error e ∧
        (retryGo δ resps total i rem lastErr).1 = .error (retryFailMsg total (some e)) := by
  intro rem
  induction rem with
  | zero => intro i lastErr h; omega
  | succ rem ih =>
    intro i lastErr _ hfail
    obtain ⟨e, he⟩ : ∃ e, fetch (resps i) = .error e := by
      simpa using hfail 0 (by omega)
    cases rem with
    | zero =>
      refine ⟨e, by simpa using he, ?_⟩
      rw [retryGo_step_error δ resps total i 0 lastErr e he]
      simp [retryGo]
    | succ r =>
      obtain ⟨e2, he2, hres⟩ := ih (i+1) (some e) (by omega)
        (fun j hj => by
          have := hfail (j+1) (by omega)
          simpa [Nat.add_assoc, Nat.add_comm 1 j] using this)
      refine ⟨e2, by simpa [Nat.add_comm, Nat.add_assoc] using he2, ?_⟩
      rw [retryGo_step_error δ resps total i (r+1) lastErr e he]
      exact hres

/-- C3: the HTTP one-shot Read with retry_attempts = n hits the server at
most n times, sleeps the fixed retry delay exactly once before every hit
except the first (the trace is the fixed-delay schedule), returns the body
of the first successful attempt with exactly that many hits (so
500, 500, 200 with n = 3 succeeds on the third of exactly 3 hits, a
non-2xx status counting as a failed attempt), and when all n attempts fail
returns the last attempt's error wrapped with the attempt count. -/
theorem C3_http_read_retry (δ n : Nat) (resps : Nat → HTTPResponse) (hn : 1 ≤ n) :
    serverHits δ n resps ≤ n ∧
    (fetchWithRetry δ n resps).2 = retrySchedule δ 0 (serverHits δ n resps) ∧
    (∀ i d, i < n → (∀ j, j < i → ∃ e, fetch (resps j) = .error e) →
        fetch (resps i) = .ok d →
        (fetchWithRetry δ n resps).1 = .ok d ∧ serverHits δ n resps = i + 1) ∧
    ((∀ j, j < n → ∃ e, fetch (resps j) = .error e) →
        ∃ e, fetch (resps (n - 1)) = .error e ∧
          (fetchWithRetry δ n resps).1 = .error (retryFailMsg n (some e))) := by
  refine ⟨retryGo_hits_le δ resps n n 0 none,
    retryGo_trace_schedule δ resps n n 0 none, ?_, ?_⟩
  · intro i d hi hfail hok
    exact retryGo_first_success δ resps n i n 0 none d hi
      (fun j hj => by simpa using hfail j hj) (by simpa using hok)
  · intro hfail
    have := retryGo_all_fail δ resps n n 0 none (by omega)
      (fun j hj => by simpa using hfail j hj)
    simpa using this

/-- Witness for C3: the 500, 500, 200 scenario with retry_attempts = 3 and
delay 1 succeeds with the 200 body on the third attempt and hits the
server exactly 3 times. -/
theorem C3_http_read_retry_witness :
    1 ≤ 3 ∧
    (fetchWithRetry 1 3 serverTwice500).1 = .ok (strBytes "conf-body") ∧
    serverHits 1 3 serverTwice500 = 3 := by
  refine ⟨by decide, ?_⟩
  have h := (C3_http_read_retry 1 3 serverTwice500 (by decide)).2.2.1 2
    (strBytes "conf-body") (by decide)
    (by
      intro j hj
      interval_cases j <;> exact ⟨_, rfl⟩)
    rfl
  exact h

/-- C10: a single HTTP fetch attempt (the unit retried by Read) with no
transport error succeeds exactly when the status code is 200 and the body
read succeeds; every other status code, 204 and 206 included, yields the
status error for that attempt. -/
theorem C10_fetch_requires_status_200 (r : HTTPResponse) (hdo : r.doErr = none) :
    ((∃ d, fetch r = .ok d) ↔ (r.status = 200 ∧ r.readErr = none)) ∧
    (r.status ≠ 200 →
      fetch r = .error ("HTTP request failed with status: " ++
        toString r.status ++ " " ++ r.statusText)) := by
  constructor
  · constructor
    · rintro ⟨d, hd⟩
      by_cases hs : r.status = 200
      · refine ⟨hs, ?_⟩
        cases hre : r.readErr with
        | none => rfl
        | some e => simp [fetch, hdo, statusOK, hs, hre] at hd
      · simp [fetch, hdo, statusOK, hs] at hd
    · rintro ⟨hs, hre⟩
      exact ⟨r.body, by simp [fetch, hdo, statusOK, hs, hre]⟩
  · intro hs
    simp [fetch, hdo, statusOK, hs]

/-- Witness for C10: 204 and 206 fail a fetch attempt with status errors
while 200 succeeds. -/
theorem C10_fetch_requires_status_200_witness :
    fetch resp204 = .error "HTTP request failed with status: 204 No Content" ∧
    fetch resp206 = .error "HTTP request failed with status: 206 Partial Content" ∧
    (∃ d, fetch resp200 = .ok d) := by
  refine ⟨?_, ?_, (C10_fetch_requires_status_200 resp200 rfl).1.mpr ⟨rfl, rfl⟩⟩
  · have h := (C10_fetch_requires_status_200 resp204 rfl).2 (by decide)
    simpa using h
  · have h := (C10_fetch_requires_status_200 resp206 rfl).2 (by decide)
    simpa using h

/-- C9: a ReadEvent is valid under IsValid exactly when its error is
absent and its payload bytes are non-empty. -/
theorem C9_read_event_validity (e : ReadEvent) :
    e.IsValid = true ↔ (e.error = none ∧ e.data ≠ []) := by
  cases e with
  | mk uri data err =>
    cases err <;> cases data <;>
      simp [ReadEvent.IsValid, Option.isNone]

/-- C1: the SSE stream `data: hello` followed by a blank line produces no
event at all.  The claim (and the source's own comment "Empty line
indicates end of event") requires one event with payload `hello` and
absent error; but the loop's first clause skips every blank line, so the
emitting branch is dead code and nothing is ever emitted. -/
theorem C1_sse_no_event_on_blank_line :
    processSSEStream "http://example.com/conf" ["data: hello", ""] none = [] := by
  decide

/-- Counterexample to C2: on a fresh open HTTP reader instance, a first
Subscribe succeeds (leaving the instance state unchanged, since the source
records no subscription), and a second concurrent Subscribe on the
resulting state succeeds as well instead of returning an error. -/
theorem C2_http_second_subscribe_succeeds :
    (httpSubscribe { closed := false }).bind httpSubscribe = .ok { closed := false } := rfl

/-- C2 amended: only the file and cluster-resource readers reject a second
concurrent subscription — with the state error `already subscribed`,
leaving the instance state (hence the first subscription) undisturbed; the
HTTP, WebSocket and key-value readers guard Subscribe with the closed flag
alone and accept a second concurrent subscription on the same instance. -/
theorem C2_single_subscription_guards :
    (∀ (s : FileReaderState) path, s.closed = false → s.watcher = false →
        fileSubscribe s path none none = .ok { s with watcher := true }) ∧
    (∀ (s : FileReaderState) path w a, s.closed = false → s.watcher = true →
        fileSubscribe s path w a = .error "already subscribed") ∧
    (∀ (s : K8SReaderState) c sy, s.closed = false → s.informer = true →
        k8sSubscribe s c sy = .error "already subscribed") ∧
    (∀ (s : HTTPReaderState), s.closed = false → httpSubscribe s = .ok s) ∧
    (∀ (s : WSReaderState), s.closed = false → wsSubscribe s = .ok s) ∧
    (∀ (s : RedisReaderState), s.closed = false → redisSubscribe s none = .ok s) := by
  refine ⟨?_, ?_, ?_, ?_, ?_, ?_⟩
  · intro s path h1 h2; simp [fileSubscribe, h1, h2]
  · intro s path w a h1 h2; simp [fileSubscribe, h1, h2]
  · intro s c sy h1 h2; simp [k8sSubscribe, h1, h2]
  · intro s h1; simp [httpSubscribe, h1]
  · intro s h1; simp [wsSubscribe, h1]
  · intro s h1; simp [redisSubscribe, h1]

/-- Witness for the amended C2: with a watch already active the file
reader rejects a second Subscribe, while the open HTTP reader accepts
one. -/
theorem C2_single_subscription_guards_witness :
    fileSubscribe { closed := false, watcher := true } "/etc/conf.json" none none =
      .error "already subscribed" ∧
    httpSubscribe { closed := false } = .ok { closed := false } := by
  have h := C2_single_subscription_guards
  exact ⟨h.2.1 { closed := false, watcher := true } "/etc/conf.json" none none rfl rfl,
    h.2.2.2.1 { closed := false } rfl⟩

theorem fileClose_closed (s : FileReaderState) (e : Option String) :
    (fileClose s e).1.closed = true := by
  rcases s with ⟨cl, w⟩
  cases cl <;> cases w <;> cases e <;> simp [fileClose]

theorem fileClose_of_closed (s : FileReaderState) (e : Option String)
    (h : s.closed = true) : fileClose s e = (s, none) := by
  simp [fileClose, h]

theorem httpClose_closed (s : HTTPReaderState) : (httpClose s).1.closed = true := by
  rcases s with ⟨cl⟩; cases cl <;> simp [httpClose]

theorem httpClose_of_closed (s : HTTPReaderState) (h : s.closed = true) :
    httpClose s = (s, none) := by
  simp [httpClose, h]

theorem wsClose_closed (s : WSReaderState) : (wsClose s).1.closed = true := by
  rcases s with ⟨cl⟩; cases cl <;> simp [wsClose]

theorem wsClose_of_closed (s : WSReaderState) (h : s.closed = true) :
    wsClose s = (s, none) := by
  simp [wsClose, h]

theorem redisClose_closed (s : RedisReaderState) (e : Option String) :
    (redisClose s e).1.closed = true := by
  rcases s with ⟨cl⟩; cases cl <;> simp [redisClose]

theorem redisClose_of_closed (s : RedisReaderState) (e : Option String)
    (h : s.closed = true) : redisClose s e = (s, none) := by
  simp [redisClose, h]

theorem k8sClose_closed (s : K8SReaderState) : (k8sClose s).1.closed = true := by
  rcases s with ⟨cl, inf⟩; cases cl <;> simp [k8sClose]

theorem k8sClose_of_closed (s : K8SReaderState) (h : s.closed = true) :
    k8sClose s = (s, none) := by
  simp [k8sClose, h]

/-- C8: for each of the five readers, once Close has returned the state is
closed, so every later Read and Subscribe returns the state error
`reader is closed` without performing the operation, and every later Close
returns nil leaving the state unchanged. -/
theorem C8_operations_after_close :
    (∀ (s : FileReaderState) e c path w a e2,
        fileRead (fileClose s e).1 c = .error "reader is closed" ∧
        fileSubscribe (fileClose s e).1 path w a = .error "reader is closed" ∧
        fileClose (fileClose s e).1 e2 = ((fileClose s e).1, none)) ∧
    (∀ (s : HTTPReaderState) δ n resps,
        httpRead (httpClose s).1 δ n resps = .error "reader is closed" ∧
        httpSubscribe (httpClose s).1 = .error "reader is closed" ∧
        httpClose (httpClose s).1 = ((httpClose s).1, none)) ∧
    (∀ (s : WSReaderState) r,
        wsRead (wsClose s).1 r = .error "reader is closed" ∧
        wsSubscribe (wsClose s).1 = .error "reader is closed" ∧
        wsClose (wsClose s).1 = ((wsClose s).1, none)) ∧
    (∀ (s : RedisReaderState) ce r ne ce2,
        redisRead (redisClose s ce).1 r = .error "reader is closed" ∧
        redisSubscribe (redisClose s ce).1 ne = .error "reader is closed" ∧
        redisClose (redisClose s ce).1 ce2 = ((redisClose s ce).1, none)) ∧
    (∀ (s : K8SReaderState) r c sy,
        k8sReadGuard (k8sClose s).1 r = .error "reader is closed" ∧
        k8sSubscribe (k8sClose s).1 c sy = .error "reader is closed" ∧
        k8sClose (k8sClose s).1 = ((k8sClose s).1, none)) := by
  refine ⟨?_, ?_, ?_, ?_, ?_⟩
  · intro s e c path w a e2
    exact ⟨by simp [fileRead, fileClose_closed],
      by simp [fileSubscribe, fileClose_closed],
      fileClose_of_closed _ _ (fileClose_closed s e)⟩
  · intro s δ n resps
    exact ⟨by simp [httpRead, httpClose_closed],
      by simp [httpSubscribe, httpClose_closed],
      httpClose_of_closed _ (httpClose_closed s)⟩
  · intro s r
    exact ⟨by simp [wsRead, wsClose_closed],
      by simp [wsSubscribe, wsClose_closed],
      wsClose_of_closed _ (wsClose_closed s)⟩
  · intro s ce r ne ce2
    exact ⟨by simp [redisRead, redisClose_closed],
      by simp [redisSubscribe, redisClose_closed],
      redisClose_of_closed _ _ (redisClose_closed s ce)⟩
  · intro s r c sy
    exact ⟨by simp [k8sReadGuard, k8sClose_closed],
      by simp [k8sSubscribe, k8sClose_closed],
      k8sClose_of_closed _ (k8sClose_closed s)⟩

/-- C5: cluster-resource value resolution for both configmaps and secrets:
with a key selector the key's value is returned or a not-found error
raised; without one the value is returned only when the resource has
exactly one key, an empty resource failing and a multi-key resource
failing with an error listing the available keys — never a silent
default. -/
theorem C5_k8s_value_resolution (ns nm key : String)
    (cm : List (String × String)) (sec : List (String × Bytes)) :
    (key ≠ "" → ∀ v, cm.lookup key = some v →
        readConfigMap ns nm key (.ok cm) = .ok (strBytes v)) ∧
    (key ≠ "" → cm.lookup key = none →
        readConfigMap ns nm key (.ok cm) =
          .error ("key " ++ key ++ " not found in configmap " ++ ns ++ "/" ++ nm)) ∧
    (∀ a v, readConfigMap ns nm "" (.ok [(a, v)]) = .ok (strBytes v)) ∧
    (readConfigMap ns nm "" (.ok []) =
        .error ("configmap " ++ ns ++ "/" ++ nm ++ " is empty")) ∧
    (∀ p q rest, readConfigMap ns nm "" (.ok (p :: q :: rest)) =
        .error ("configmap " ++ ns ++ "/" ++ nm ++
          " contains multiple keys, please specify one: " ++
          formatKeys ((p :: q :: rest).map Prod.fst))) ∧
    (key ≠ "" → ∀ v, sec.lookup key = some v →
        readSecret ns nm key (.ok sec) = .ok v) ∧
    (key ≠ "" → sec.lookup key = none →
        readSecret ns nm key (.ok sec) =
          .error ("key " ++ key ++ " not found in secret " ++ ns ++ "/" ++ nm)) ∧
    (∀ a v, readSecret ns nm "" (.ok [(a, v)]) = .ok v) ∧
    (readSecret ns nm "" (.ok []) =
        .error ("secret " ++ ns ++ "/" ++ nm ++ " is empty")) ∧
    (∀ p q rest, readSecret ns nm "" (.ok (p :: q :: rest)) =
        .error ("secret " ++ ns ++ "/" ++ nm ++
          " contains multiple keys, please specify one: " ++
          formatKeys ((p :: q :: rest).map Prod.fst))) := by
  refine ⟨?_, ?_, ?_, ?_, ?_, ?_, ?_, ?_, ?_, ?_⟩
  · intro hk v hv; simp [readConfigMap, hk, hv]
  · intro hk hv; simp [readConfigMap, hk, hv]
  · intro a v; simp [readConfigMap]
  · simp [readConfigMap]
  · intro p q rest; simp [readConfigMap]
  · intro hk v hv; simp [readSecret, hk, hv]
  · intro hk hv; simp [readSecret, hk, hv]
  · intro a v; simp [readSecret]
  · simp [readSecret]
  · intro p q rest; simp [readSecret]

/-- Witness for C5: the spec's scenario — a configmap with keys a and b
and no selector fails listing both keys; selector b resolves to y; a
single-key configmap with no selector resolves to its value. -/
theorem C5_k8s_value_resolution_witness :
    readConfigMap "default" "app" "" (.ok [("a", "x"), ("b", "y")]) =
      .error "configmap default/app contains multiple keys, please specify one: [a b]" ∧
    readConfigMap "default" "app" "b" (.ok [("a", "x"), ("b", "y")]) = .ok (strBytes "y") ∧
    readConfigMap "default" "app" "" (.ok [("a", "x")]) = .ok (strBytes "x") := by
  have h1 := (C5_k8s_value_resolution "default" "app" "" [("a", "x"), ("b", "y")] []).2.2.2.2.1
    ("a", "x") ("b", "y") []
  have h2 := (C5_k8s_value_resolution "default" "app" "b" [("a", "x"), ("b", "y")] []).1
    (by decide) "y" rfl
  have h3 := (C5_k8s_value_resolution "default" "app" "" [("a", "x")] []).2.2.1 "a" "x"
  exact ⟨h1, h2, h3⟩

/-- Counterexample to C6: the event the delete handler emits has an
absent error — it is NewReadEvent(uri, nil, nil) — whereas the claim says
the deletion event carries a non-absent error. -/
theorem C6_delete_event_error_is_absent :
    (k8sDeleteEvent "k8s://configmap/default/my-config").error = none := rfl

/-- C6 amended: on deletion the handler emits an event with absent error
and empty payload; the event is indeed not valid under the §3 predicate,
but because its payload is empty, not because it carries an error. -/
theorem C6_delete_event_empty_not_error (uri : String) :
    (k8sDeleteEvent uri).error = none ∧
    (k8sDeleteEvent uri).data = [] ∧
    (k8sDeleteEvent uri).IsValid = false :=
  ⟨rfl, rfl, rfl⟩

/-- Counterexample to C4: a connection that ends with an abnormal closure
(close code 1006) emits no error event at all — the code treats 1006 as an
expected close — while a clean normal closure (close code 1000) emits one
error event; the claim states the opposite on both counts. -/
theorem C4_ws_close_code_events :
    errorEventCount (handleWSConnection "ws://example.com/conf"
      { dialErr := none, msgs := [], termErr := .closeErr 1006 "unexpected EOF" }) = 0 ∧
    errorEventCount (handleWSConnection "ws://example.com/conf"
      { dialErr := none, msgs := [], termErr := .closeErr 1000 "normal closure" }) = 1 :=
  ⟨rfl, rfl⟩

theorem errorEventCount_past_data (uri : String) (msgs : List Bytes)
    (tailEvs : List ReadEvent) :
    errorEventCount (msgs.map (fun d => NewReadEvent uri d none) ++ tailEvs) =
      errorEventCount tailEvs := by
  simp [errorEventCount, isErrorEvent, NewReadEvent, List.filter_append]

/-- C4 amended: when the dial succeeds, a connection emits exactly one
error event when its terminating read error is a close error whose status
code is neither going-away (1001) nor abnormal-closure (1006), and no
error event otherwise (abnormal closure and going-away closes as well as
non-close read errors are silent); a normal closure (1000) thus emits
exactly one error event.  The per-message data events come first, and in
the subscription loop each connection's events are followed by one
reconnect sleep of the retry delay before the next connection. -/
theorem C4_ws_error_event_characterization (uri : String) (δ : Nat)
    (sc : WSConnScript) (rest : List WSConnScript) (hdial : sc.dialErr = none) :
    errorEventCount (handleWSConnection uri sc) =
      (match sc.termErr with
       | .closeErr code _ =>
         if code = CloseGoingAway ∨ code = CloseAbnormalClosure then 0 else 1
       | .otherErr _ => 0) ∧
    (handleWSConnection uri sc).take sc.msgs.length =
      sc.msgs.map (fun d => NewReadEvent uri d none) ∧
    subscribeWS uri δ (sc :: rest) =
      (handleWSConnection uri sc).map WSTraceItem.event ++
        WSTraceItem.sleep δ :: subscribeWS uri δ rest := by
  refine ⟨?_, ?_, ?_⟩
  · rw [handleWSConnection, hdial]
    rw [errorEventCount_past_data]
    cases h : sc.termErr with
    | closeErr code text =>
      by_cases hc : code = CloseGoingAway ∨ code = CloseAbnormalClosure
      · have : isUnexpectedCloseError (WSReadErr.closeErr code text)
            [CloseGoingAway, CloseAbnormalClosure] = false := by
          rcases hc with hc | hc <;> simp [isUnexpectedCloseError, hc]
        simp [this, hc, errorEventCount]
      · have hc1 : ¬ code = CloseGoingAway := fun hh => hc (Or.inl hh)
        have hc2 : ¬ code = CloseAbnormalClosure := fun hh => hc (Or.inr hh)
        have : isUnexpectedCloseError (WSReadErr.closeErr code text)
            [CloseGoingAway, CloseAbnormalClosure] = true := by
          simp [isUnexpectedCloseError, hc1, hc2]
        simp [this, hc, errorEventCount, isErrorEvent, NewReadEvent]
    | otherErr msg =>
      simp [isUnexpectedCloseError, errorEventCount]
  · rw [handleWSConnection, hdial]
    rw [List.take_append_of_le_length (by simp)]
    simp
  · simp [subscribeWS]

/-- Witness for the amended C4: zero error events for the abnormal
closure, one for the normal closure, and the sleep follows the events of
the sole connection. -/
theorem C4_ws_error_event_characterization_witness :
    errorEventCount (handleWSConnection "ws://example.com/conf"
      { dialErr := none, msgs := [strBytes "m"], termErr := .closeErr 1006 "eof" }) = 0 ∧
    errorEventCount (handleWSConnection "ws://example.com/conf"
      { dialErr := none, msgs := [], termErr := .closeErr 1000 "bye" }) = 1 ∧
    subscribeWS "ws://example.com/conf" 7
      [{ dialErr := none, msgs := [], termErr := .closeErr 1000 "bye" }] =
      (handleWSConnection "ws://example.com/conf"
        { dialErr := none, msgs := [], termErr := .closeErr 1000 "bye" }).map
          WSTraceItem.event ++ [WSTraceItem.sleep 7] := by
  have h1 := (C4_ws_error_event_characterization "ws://example.com/conf" 7
    { dialErr := none, msgs := [strBytes "m"], termErr := .closeErr 1006 "eof" } [] rfl).1
  have h2 := C4_ws_error_event_characterization "ws://example.com/conf" 7
    { dialErr := none, msgs := [], termErr := .closeErr 1000 "bye" } [] rfl
  refine ⟨by simpa using h1, by simpa using h2.1, by simpa using h2.2.2⟩

/-- Counterexample to C7: when the initial fetch fails (the key does not
yet exist), no initial event is emitted at all and the first delivered
event is already a change event, whereas the claim requires one event from
the initial read to be delivered before any change event. -/
theorem C7_initial_fetch_failure_emits_nothing :
    subscribeKeyspace "redis://localhost:6379/config:app"
      (.error "key 'config:app' not found") [.ok (strBytes "v2")] =
      [NewReadEvent "redis://localhost:6379/config:app" (strBytes "v2") none] := rfl

theorem keyspaceLoop_length (uri : String) (notifs : List (Except String Bytes)) :
    (keyspaceLoop uri notifs).length = notifs.length := by
  induction notifs with
  | nil => rfl
  | cons r rest ih =>
    cases r <;> simp [keyspaceLoop, ih]

/-- C7 amended: a subscription's first emitted event carries the initial
fetch's value only when that fetch succeeds — on an initial fetch failure
no initial event is emitted and the stream starts with the change events;
thereafter every keyspace notification yields exactly one event, the i-th
carrying the i-th fresh fetch's data on success or its error on
failure. -/
theorem C7_keyspace_subscription_events (uri : String)
    (initial : Except String Bytes) (notifs : List (Except String Bytes)) :
    (∀ d, initial = .ok d →
        subscribeKeyspace uri initial notifs =
          NewReadEvent uri d none :: keyspaceLoop uri notifs) ∧
    (∀ e, initial = .error e →
        subscribeKeyspace uri initial notifs = keyspaceLoop uri notifs) ∧
    (keyspaceLoop uri notifs).length = notifs.length ∧
    (∀ i d, i < notifs.length → notifs.getD i (.error "") = .ok d →
        (keyspaceLoop uri notifs).getD i (NewReadEvent uri [] none) =
          NewReadEvent uri d none) ∧
    (∀ i e, i < notifs.length → notifs.getD i (.ok []) = .error e →
        (keyspaceLoop uri notifs).getD i (NewReadEvent uri [] none) =
          NewReadEvent uri [] (some e)) := by
  refine ⟨?_, ?_, keyspaceLoop_length uri notifs, ?_, ?_⟩
  · intro d hd; simp [subscribeKeyspace, hd]
  · intro e he; simp [subscribeKeyspace, he]
  · intro i d
    induction notifs generalizing i with
    | nil => intro h hv; simp at h
    | cons r rest ih =>
      intro hi hv
      cases i with
      | zero =>
        cases r with
        | ok d0 =>
          simp at hv
          simp [keyspaceLoop, hv]
        | error e0 => simp at hv
      | succ i =>
        have := ih i (by simpa using hi) (by simpa using hv)
        cases r <;> simpa [keyspaceLoop] using this
  · intro i e
    induction notifs generalizing i with
    | nil => intro h hv; simp at h
    | cons r rest ih =>
      intro hi hv
      cases i with
      | zero =>
        cases r with
        | ok d0 => simp at hv
        | error e0 =>
          simp at hv
          simp [keyspaceLoop, hv]
      | succ i =>
        have := ih i (by simpa using hi) (by simpa using hv)
        cases r <;> simpa [keyspaceLoop] using this

/-- Witness for the amended C7: with a successful initial fetch of v1 and
one notification fetching v2, the first event carries v1 and the
notification event carries v2. -/
theorem C7_keyspace_subscription_events_witness :
    subscribeKeyspace "redis://localhost:6379/config:app" (.ok (strBytes "v1"))
      [.ok (strBytes "v2")] =
      NewReadEvent "redis://localhost:6379/config:app" (strBytes "v1") none ::
        keyspaceLoop "redis://localhost:6379/config:app" [.ok (strBytes "v2")] ∧
    (keyspaceLoop "redis://localhost:6379/config:app" [.ok (strBytes "v2")]).getD 0
      (NewReadEvent "redis://localhost:6379/config:app" [] none) =
      NewReadEvent "redis://localhost:6379/config:app" (strBytes "v2") none := by
  have h := C7_keyspace_subscription_events "redis://localhost:6379/config:app"
    (.ok (strBytes "v1")) [.ok (strBytes "v2")]
  exact ⟨h.1 (strBytes "v1") rfl, h.2.2.2.1 0 (strBytes "v2") (by simp) rfl⟩

end Feconf
